import Mathlib

/-!
A shallow embedding in Lean 4 of the logical core of
`src/Password_Generator.py` (a Tkinter password-generating utility),
together with theorems checking the repository's natural-language
specification against that code.

Modelled components:
* `Password_Generator` (lines 12-81): preference storage, character-pool
  construction (`create_pool`) and password drawing (`generate_password`).
  Python strings are modelled as `List Char`; the mutable instance state
  (`self.prefs`, `self.pool`) is threaded explicitly as a
  `GeneratorState`.  The call `secrets.choice(self.pool)` (line 80) is
  modelled by `secrets_choice`: the cryptographically secure source is an
  oracle `draws : Nat → Nat` supplying one raw value per loop iteration,
  reduced modulo the pool size; on an empty sequence `secrets.choice`
  raises `IndexError`, modelled as `none`.
* `PasswordGUI.save_excel` (lines 217-259) and the purpose-dialog tail of
  `PasswordGUI.generate_password` (lines 204-212): the spreadsheet file at
  the fixed path is modelled as `Option FileContent` (`none` = file does
  not exist); `pd.read_excel` on a file it cannot parse raises, modelled
  by the `FileContent.corrupt` constructor.  `FileContent` covers the
  well-shaped tables and unparseable files; a second, finer model
  (`DataFrame`, `XlsxFile`, `save_excel_df`) additionally represents
  parseable spreadsheets of arbitrary column shape, which
  `pd.read_excel` reads without error and `pd.concat` (line 250)
  column-unions with NaN padding — the code performs no shape
  validation.  A bridge lemma (`save_excel_df_agrees`) shows the finer
  model restricts to the simple one on well-shaped tables.
-/

namespace PwGen

/-- The four fixed class alphabets of `create_pool` (lines 54, 58, 62, 66). -/
def lowercaseChars : List Char := "abcdefghijklmnopqrstuvwxyz".toList

/-- Uppercase alphabet added at line 58. -/
def uppercaseChars : List Char := "ABCDEFGHIJKLMNOPQRSTUVWXYZ".toList

/-- Digit alphabet added at line 62. -/
def digitChars : List Char := "0123456789".toList

/-- Symbol alphabet added at line 66. -/
def symbolChars : List Char := "!@#$%^&*()_+-=[]\x7d\x7b|;:,.<>/?".toList

/-- The `self.prefs` dictionary as filled in by `set_preferences`
(lines 26-38): keys `length_input`, `lowercase`, `uppercase`, `numbers`,
`symbols`. -/
structure Prefs where
  length_input : Nat
  lowercase : Bool
  uppercase : Bool
  numbers : Bool
  symbols : Bool
deriving DecidableEq

/-- The mutable state of a `Password_Generator` instance
(`self.prefs`, `self.pool`; lines 20-24). -/
structure GeneratorState where
  prefs : Prefs
  pool : List Char
deriving DecidableEq

/-- `Password_Generator.set_preferences` (lines 26-38): stores the five
values verbatim into `self.prefs`, performing no validation, leaving
`self.pool` untouched. -/
def set_preferences (st : GeneratorState) (length : Nat) (lowercase uppercase numbers symbols_flag : Bool) : GeneratorState :=
  ⟨⟨length, lowercase, uppercase, numbers, symbols_flag⟩, st.pool⟩

/-- `Password_Generator.create_pool` (lines 40-66): resets `self.pool` to
the empty string (line 47) and then appends each class alphabet whose
preference flag is set, in the fixed order lowercase, uppercase, digits,
symbols. -/
def create_pool (st : GeneratorState) : GeneratorState :=
  let pool0 : List Char := []
  let pool1 := if st.prefs.lowercase then pool0 ++ lowercaseChars else pool0
  let pool2 := if st.prefs.uppercase then pool1 ++ uppercaseChars else pool1
  let pool3 := if st.prefs.numbers then pool2 ++ digitChars else pool2
  let pool4 := if st.prefs.symbols then pool3 ++ symbolChars else pool3
  ⟨st.prefs, pool4⟩

/-- Python `secrets.choice(pool)` (line 80): one uniform secure-random
selection from `pool`.  The secure random outcome is supplied as the raw
oracle value `r`, interpreted as the index `r % pool.length`; every index
of `pool` arises this way, and quantifying theorems over all oracles
covers every possible sequence of secure-random outcomes.  On an empty
sequence `secrets.choice` raises `IndexError`, modelled as `none`. -/
def secrets_choice (pool : List Char) (r : Nat) : Option Char :=
  if h : 0 < pool.length then
    some (pool.get ⟨r % pool.length, Nat.mod_lt r h⟩)
  else
    none

/-- `Password_Generator.generate_password` (lines 68-81): starting from the
empty string, the loop `for i in range(self.prefs["length_input"])`
appends one `secrets.choice(self.pool)` result per iteration and returns
the accumulated password.  A raised `IndexError` (empty pool) is modelled
by `none` propagating through the fold. -/
def generate_password (st : GeneratorState) (draws : Nat → Nat) : Option (List Char) :=
  (List.range st.prefs.length_input).foldl
    (fun password i => do
      let p ← password
      let c ← secrets_choice st.pool (draws i)
      pure (p ++ [c]))
    (some [])

/-- Python `str.upper()` applied at line 225 (`purpose.upper()`); purposes
are ASCII strings, for which `Char.toUpper` agrees with Python. -/
def py_upper (s : List Char) : List Char := s.map Char.toUpper

/-- One row of the spreadsheet, under the three columns built at
lines 224-228: `Purpose`, `Password`, `Timestamp`. -/
structure Row where
  Purpose : List Char
  Password : List Char
  Timestamp : List Char
deriving DecidableEq

/-- Content of the file at `passwords_sheet.xlsx`, restricted to the two
cases the well-shaped round-trip claims range over: a well-formed
single-sheet table under the expected three columns, or bytes
`pd.read_excel` cannot parse at all.  Parseable spreadsheets of a
different column shape are covered by the finer `DataFrame`/`XlsxFile`
model below. -/
inductive FileContent where
  | table (rows : List Row)
  | corrupt
deriving DecidableEq

/-- `pd.read_excel(file_path)` (line 247) on the two-case model: returns
the stored rows of a well-formed table and raises (modelled as
`Except.error`) exactly on a file it cannot parse. -/
def read_excel (f : FileContent) : Except Unit (List Row) :=
  match f with
  | FileContent.table rows => Except.ok rows
  | FileContent.corrupt => Except.error ()

/-- `PasswordGUI.save_excel` (lines 217-259) acting on the file at the
fixed path, modelled as `Option FileContent` (`none` = no file exists,
line 233).  Returns the call's outcome together with the resulting file
state.  The new record's purpose is upper-cased (line 225).  If the file
does not exist, a one-row table is created (lines 235-242); otherwise the
existing rows are read back (line 247) — a raised read error propagates
before any writer is opened, leaving the file unchanged — and the whole
table is rewritten with the new row concatenated at the end
(lines 250-259). -/
def save_excel (purpose password timestamp : List Char) (fs : Option FileContent) :
    Except Unit Unit × Option FileContent :=
  let df : List Row := [⟨py_upper purpose, password, timestamp⟩]
  match fs with
  | none => (Except.ok (), some (FileContent.table df))
  | some f =>
      match read_excel f with
      | Except.error e => (Except.error e, some f)
      | Except.ok existing =>
          (Except.ok (), some (FileContent.table (existing ++ df)))

/-- The purpose-dialog tail of `PasswordGUI.generate_password`
(lines 204-212): `simpledialog.askstring` yields `None` when the dialog
is cancelled (modelled `none`) or the typed string; `if purpose:` saves
only when the purpose is a non-empty string (Python truthiness), so a
cancelled dialog or an empty purpose performs no save and raises no
error. -/
def handle_purpose (purpose : Option (List Char)) (password timestamp : List Char)
    (fs : Option FileContent) : Except Unit Unit × Option FileContent :=
  match purpose with
  | none => (Except.ok (), fs)
  | some p => if p = [] then (Except.ok (), fs) else save_excel p password timestamp fs

/-- One spreadsheet cell in the finer pandas model; `none` models the
`NaN` a `pd.concat` column union pads missing entries with. -/
abbrev Cell := Option (List Char)

/-- A pandas DataFrame as `pd.read_excel` (line 247) produces it: named
columns in order, and per-row cell lists aligned with the columns.  Any
parseable spreadsheet yields one, whatever its columns — the code never
validates the shape. -/
structure DataFrame where
  cols : List (List Char)
  rows : List (List Cell)
deriving DecidableEq

/-- The file at the fixed path in the finer model: any parseable
spreadsheet (of arbitrary column shape), or bytes the reader cannot
parse. -/
inductive XlsxFile where
  | readable (df : DataFrame)
  | unreadable
deriving DecidableEq

/-- `pd.read_excel(file_path)` (line 247) on the finer model: raises
exactly on an unparseable file; a parseable spreadsheet of any column
shape is returned without error. -/
def pd_read_excel (f : XlsxFile) : Except Unit DataFrame :=
  match f with
  | XlsxFile.readable df => Except.ok df
  | XlsxFile.unreadable => Except.error ()

/-- Realigns one row stored under `oldCols` to the column list `newCols`,
filling columns the row does not have with `NaN` — the padding
`pd.concat` applies during its column union. -/
def reindex (oldCols newCols : List (List Char)) (row : List Cell) : List Cell :=
  newCols.map (fun c =>
    match oldCols.findIdx? (fun c2 => c2 == c) with
    | some k => row.getD k none
    | none => none)

/-- `pd.concat([existing, df], ignore_index=True)` (line 250): the column
union keeps the first frame's columns in order followed by the second
frame's new ones, rows of both frames follow in order, and missing
entries are padded with `NaN`. -/
def pd_concat (a b : DataFrame) : DataFrame :=
  let cols := a.cols ++ b.cols.filter (fun c => !(a.cols.contains c))
  ⟨cols, a.rows.map (fun r => reindex a.cols cols r) ++
         b.rows.map (fun r => reindex b.cols cols r)⟩

/-- The expected column names of the store, in the order fixed at
lines 224-228. -/
def expected_cols : List (List Char) :=
  [("Purpose".toList), ("Password".toList), ("Timestamp".toList)]

/-- The one-row DataFrame built at lines 224-228 for the new record, with
the purpose upper-cased. -/
def row_df (purpose password timestamp : List Char) : DataFrame :=
  ⟨expected_cols, [[some (py_upper purpose), some password, some timestamp]]⟩

/-- `PasswordGUI.save_excel` (lines 217-259) over the finer file model:
create the one-row table when no file exists (lines 233-242); otherwise
`pd.read_excel` (line 247) — raising, and leaving the file unchanged,
only on an unparseable file — then `pd.concat` (line 250) and a full
rewrite (lines 253-259), with no validation of the columns read. -/
def save_excel_df (purpose password timestamp : List Char) (fs : Option XlsxFile) :
    Except Unit Unit × Option XlsxFile :=
  let df := row_df purpose password timestamp
  match fs with
  | none => (Except.ok (), some (XlsxFile.readable df))
  | some f =>
      match pd_read_excel f with
      | Except.error e => (Except.error e, some f)
      | Except.ok existing =>
          (Except.ok (), some (XlsxFile.readable (pd_concat existing df)))

/-- The well-shaped table of the simple model viewed as a DataFrame. -/
def df_of_table (rows : List Row) : DataFrame :=
  ⟨expected_cols, rows.map (fun r => [some r.Purpose, some r.Password, some r.Timestamp])⟩

/-- A parseable spreadsheet whose columns are not the expected three:
the concrete wrong-shape input of the C6 counterexample. -/
def wrong_shape_df : DataFrame :=
  ⟨[("A".toList), ("B".toList)], [[some ("1".toList), some ("2".toList)]]⟩

/-! ### Helper development -/

/-- The pool produced by `create_pool` as a function of the four class
flags alone (the body of `create_pool`, lines 47-66, reads nothing else
of the instance state). -/
def pool_of (l u n s : Bool) : List Char :=
  (create_pool ⟨⟨0, l, u, n, s⟩, []⟩).pool

set_option maxHeartbeats 2000000 in
lemma pool_of_spec : ∀ l u n s : Bool,
    pool_of l u n s =
      (if l then lowercaseChars else []) ++
      ((if u then uppercaseChars else []) ++
      ((if n then digitChars else []) ++
      (if s then symbolChars else []))) ∧
    (∀ c ∈ lowercaseChars, c ∈ pool_of l u n s ↔ l = true) ∧
    (∀ c ∈ uppercaseChars, c ∈ pool_of l u n s ↔ u = true) ∧
    (∀ c ∈ digitChars, c ∈ pool_of l u n s ↔ n = true) ∧
    (∀ c ∈ symbolChars, c ∈ pool_of l u n s ↔ s = true) ∧
    (pool_of l u n s).Nodup ∧
    (pool_of l u n s = [] ↔ l = false ∧ u = false ∧ n = false ∧ s = false) := by
  decide

lemma secrets_choice_pos (pool : List Char) (r : Nat) (h : 0 < pool.length) :
    secrets_choice pool r = some (pool.get ⟨r % pool.length, Nat.mod_lt r h⟩) := by
  simp [secrets_choice, h]

lemma gen_fold_eq (pool : List Char) (draws : Nat → Nat) (h : 0 < pool.length) :
    ∀ len : Nat,
      (List.range len).foldl
        (fun password i => do
          let p ← password
          let c ← secrets_choice pool (draws i)
          pure (p ++ [c])) (some []) =
      some ((List.range len).map
        (fun i => pool.get ⟨draws i % pool.length, Nat.mod_lt (draws i) h⟩)) := by
  intro len
  induction len with
  | zero => rfl
  | succ n ih =>
      rw [List.range_succ, List.foldl_append, ih, List.map_append]
      simp [secrets_choice_pos pool (draws n) h]

/-- On a non-empty pool the loop of `generate_password` (lines 79-80)
produces exactly one pool element per loop index, in draw order. -/
lemma generate_password_eq (prefs : Prefs) (pool : List Char) (draws : Nat → Nat)
    (h : 0 < pool.length) :
    generate_password ⟨prefs, pool⟩ draws =
      some ((List.range prefs.length_input).map
        (fun i => pool.get ⟨draws i % pool.length, Nat.mod_lt (draws i) h⟩)) :=
  gen_fold_eq pool draws h prefs.length_input

lemma gen_fold_none (pool : List Char) (draws : Nat → Nat) :
    ∀ l : List Nat,
      l.foldl
        (fun password i => do
          let p ← password
          let c ← secrets_choice pool (draws i)
          pure (p ++ [c])) none = none := by
  intro l
  induction l with
  | nil => rfl
  | cons x xs ih => exact ih

/-- With a positive stored length, the first loop iteration of
`generate_password` already hits the `IndexError` of
`secrets.choice("")`, and the error propagates. -/
lemma generate_password_empty_pool (prefs : Prefs) (draws : Nat → Nat)
    (hlen : 1 ≤ prefs.length_input) :
    generate_password ⟨prefs, []⟩ draws = none := by
  obtain ⟨m, hm⟩ : ∃ m, prefs.length_input = m + 1 :=
    ⟨prefs.length_input - 1, (Nat.succ_pred_eq_of_pos hlen).symm⟩
  show (List.range prefs.length_input).foldl _ (some []) = none
  rw [hm, List.range_succ_eq_map]
  exact gen_fold_none [] draws _

/-- One secure draw per password position: a point of the finite outcome
space `Fin len → Fin n`, embedded as a raw oracle for
`generate_password`. -/
def draw_stream (len n : Nat) (f : Fin len → Fin n) : Nat → Nat :=
  fun k => if hk : k < len then (f ⟨k, hk⟩ : Nat) else 0

/-- The character that `generate_password` places at position `i`. -/
def output_char (prefs : Prefs) (pool : List Char) (draws : Nat → Nat) (i : Nat) : Char :=
  ((generate_password ⟨prefs, pool⟩ draws).getD []).getD i 'a'

lemma output_char_eq (prefs : Prefs) (pool : List Char) (draws : Nat → Nat)
    (h : 0 < pool.length) (i : Nat) (hi : i < prefs.length_input) :
    output_char prefs pool draws i =
      pool.get ⟨draws i % pool.length, Nat.mod_lt (draws i) h⟩ := by
  unfold output_char
  rw [generate_password_eq prefs pool draws h]
  simp only [Option.getD_some]
  rw [List.getD_eq_getElem]
  · simp
  · simpa using hi

lemma output_char_stream (prefs : Prefs) (pool : List Char)
    (h : 0 < pool.length) (f : Fin prefs.length_input → Fin pool.length)
    (i : Nat) (hi : i < prefs.length_input) :
    output_char prefs pool (draw_stream prefs.length_input pool.length f) i =
      pool.get (f ⟨i, hi⟩) := by
  rw [output_char_eq prefs pool _ h i hi]
  congr 1
  apply Fin.ext
  simp [draw_stream, hi, Nat.mod_eq_of_lt (f ⟨i, hi⟩).isLt]

/-- Draw streams with one fixed coordinate correspond exactly to the draw
streams of the remaining coordinates. -/
def fix_one_equiv (len n : Nat) (i0 : Fin len) (j0 : Fin n) :
    {f : Fin len → Fin n // f i0 = j0} ≃ ({k : Fin len // k ≠ i0} → Fin n) where
  toFun fh := fun k => fh.1 k.1
  invFun g := ⟨fun k => if hk : k = i0 then j0 else g ⟨k, hk⟩, by simp⟩
  left_inv := by
    rintro ⟨f, hf⟩
    apply Subtype.ext
    funext k
    by_cases hk : k = i0
    · subst hk; simp [hf]
    · simp [hk]
  right_inv := by
    intro g
    funext k
    obtain ⟨k, hk⟩ := k
    simp [hk]

lemma card_fix_one (len n : Nat) (i0 : Fin len) (j0 : Fin n) :
    (Finset.univ.filter (fun f : Fin len → Fin n => f i0 = j0)).card = n ^ (len - 1) := by
  rw [← Fintype.card_subtype]
  rw [Fintype.card_congr (fix_one_equiv len n i0 j0)]
  rw [Fintype.card_fun]
  congr 1
  · simp
  · rw [Fintype.card_subtype_compl, Fintype.card_subtype_eq]
    simp

/-- The finer pandas model restricts to the simple two-case model on
well-shaped inputs: on a fresh path or an existing well-shaped table,
`save_excel_df` creates/appends exactly as `save_excel` does (the
`pd.concat` column union degenerates to a plain row append when the
columns already match). -/
lemma save_excel_df_agrees (p w t : List Char) (rows : List Row) :
    save_excel_df p w t none =
      (Except.ok (), some (XlsxFile.readable (df_of_table [⟨py_upper p, w, t⟩]))) ∧
    save_excel_df p w t (some (XlsxFile.readable (df_of_table rows))) =
      (Except.ok (), some (XlsxFile.readable (df_of_table (rows ++ [⟨py_upper p, w, t⟩])))) := by
  constructor
  · rfl
  · show (Except.ok (), some (XlsxFile.readable (pd_concat (df_of_table rows) (row_df p w t)))) = _
    have hconcat : pd_concat (df_of_table rows) (row_df p w t) =
        df_of_table (rows ++ [⟨py_upper p, w, t⟩]) := by
      unfold pd_concat df_of_table row_df
      simp only [List.map_append, List.map_map]
      constructor
    rw [hconcat]

/-! ### Claim theorems -/

/-- Claim C1: for every non-empty pool and every stored length ≥ 1,
`Password_Generator.generate_password` returns a string of exactly
`length` characters, each a member of the pool, concatenated in draw
order (position `i` holds the character selected by the `i`-th secure
draw). -/
theorem generate_password_correct (prefs : Prefs) (pool : List Char) (draws : Nat → Nat)
    (hpool : pool ≠ []) (hlen : 1 ≤ prefs.length_input) :
    ∃ pw : List Char,
      generate_password ⟨prefs, pool⟩ draws = some pw ∧
      pw.length = prefs.length_input ∧
      (∀ c ∈ pw, c ∈ pool) ∧
      pw = (List.range prefs.length_input).map
        (fun i => pool.getD (draws i % pool.length) 'a') := by
  have h : 0 < pool.length := List.length_pos.mpr hpool
  refine ⟨_, generate_password_eq prefs pool draws h, ?_, ?_, ?_⟩
  · simp
  · intro c hc
    simp only [List.mem_map] at hc
    obtain ⟨i, _, rfl⟩ := hc
    exact List.get_mem _ _ _
  · refine List.map_congr_left ?_
    intro i _
    rw [List.getD_eq_getElem _ _ (Nat.mod_lt (draws i) h)]
    rfl

theorem generate_password_correct_witness :
    (("abc".toList) ≠ []) ∧
    (1 ≤ (⟨3, true, false, false, false⟩ : Prefs).length_input) ∧
    ∃ pw : List Char,
      generate_password ⟨⟨3, true, false, false, false⟩, ("abc".toList)⟩ (fun i => i) =
        some pw ∧
      pw.length = (⟨3, true, false, false, false⟩ : Prefs).length_input ∧
      (∀ c ∈ pw, c ∈ ("abc".toList)) ∧
      pw = (List.range (⟨3, true, false, false, false⟩ : Prefs).length_input).map
        (fun i => ("abc".toList).getD ((fun i : Nat => i) i % ("abc".toList).length) 'a') :=
  ⟨by decide, by decide,
    generate_password_correct ⟨3, true, false, false, false⟩ ("abc".toList)
      (fun i => i) (by decide) (by decide)⟩

/-- Claim C2: for every flag assignment, `Password_Generator.create_pool`
produces exactly the concatenation, in the fixed order lowercase,
uppercase, digits, symbols, of the enabled class alphabets; the pool
contains a class character iff that class is enabled, has no duplicate
characters, and is empty iff all four flags are false. -/
theorem create_pool_exact_union (st : GeneratorState) :
    (create_pool st).pool =
      (if st.prefs.lowercase then lowercaseChars else []) ++
      ((if st.prefs.uppercase then uppercaseChars else []) ++
      ((if st.prefs.numbers then digitChars else []) ++
      (if st.prefs.symbols then symbolChars else []))) ∧
    (∀ c ∈ lowercaseChars, c ∈ (create_pool st).pool ↔ st.prefs.lowercase = true) ∧
    (∀ c ∈ uppercaseChars, c ∈ (create_pool st).pool ↔ st.prefs.uppercase = true) ∧
    (∀ c ∈ digitChars, c ∈ (create_pool st).pool ↔ st.prefs.numbers = true) ∧
    (∀ c ∈ symbolChars, c ∈ (create_pool st).pool ↔ st.prefs.symbols = true) ∧
    ((create_pool st).pool).Nodup ∧
    ((create_pool st).pool = [] ↔
      st.prefs.lowercase = false ∧ st.prefs.uppercase = false ∧
      st.prefs.numbers = false ∧ st.prefs.symbols = false) := by
  obtain ⟨⟨len, l, u, n, s⟩, pool0⟩ := st
  exact pool_of_spec l u n s

/-- Claim C4: with all four class flags false, `create_pool` leaves an
empty pool, and `generate_password` invoked on that empty pool with a
positive stored length fails (the `IndexError` of `secrets.choice` on an
empty sequence) instead of returning a password; no partial password is
produced. -/
theorem empty_pool_generate_fails (prefs : Prefs) (pool0 : List Char) (draws : Nat → Nat)
    (hl : prefs.lowercase = false) (hu : prefs.uppercase = false)
    (hn : prefs.numbers = false) (hs : prefs.symbols = false)
    (hlen : 1 ≤ prefs.length_input) :
    (create_pool ⟨prefs, pool0⟩).pool = [] ∧
    generate_password ⟨prefs, (create_pool ⟨prefs, pool0⟩).pool⟩ draws = none := by
  have hpool : (create_pool ⟨prefs, pool0⟩).pool = [] := by
    simp [create_pool, hl, hu, hn, hs]
  exact ⟨hpool, hpool ▸ generate_password_empty_pool prefs draws hlen⟩

theorem empty_pool_generate_fails_witness :
    ((⟨1, false, false, false, false⟩ : Prefs).lowercase = false) ∧
    ((⟨1, false, false, false, false⟩ : Prefs).uppercase = false) ∧
    ((⟨1, false, false, false, false⟩ : Prefs).numbers = false) ∧
    ((⟨1, false, false, false, false⟩ : Prefs).symbols = false) ∧
    (1 ≤ (⟨1, false, false, false, false⟩ : Prefs).length_input) ∧
    ((create_pool ⟨⟨1, false, false, false, false⟩, []⟩).pool = [] ∧
      generate_password
        ⟨⟨1, false, false, false, false⟩,
          (create_pool ⟨⟨1, false, false, false, false⟩, []⟩).pool⟩ (fun _ => 0) = none) :=
  ⟨rfl, rfl, rfl, rfl, by decide,
    empty_pool_generate_fails ⟨1, false, false, false, false⟩ [] (fun _ => 0)
      rfl rfl rfl rfl (by decide)⟩

/-- Claim C9: `Password_Generator.generate_password` performs no
validation of the stored length: with `length_input = 0` and any pool
(including the empty pool), the loop body never runs and the empty
string is returned without error. -/
theorem generate_password_zero_length (l u n s : Bool) (pool : List Char)
    (draws : Nat → Nat) :
    generate_password ⟨⟨0, l, u, n, s⟩, pool⟩ draws = some [] := rfl

/-- Claim C10: `create_pool` resets `self.pool` before rebuilding it, so
the resulting pool depends only on the current preference flags, not on
any previously stored pool, and running `create_pool` twice leaves the
same state as running it once. -/
theorem create_pool_reset_idempotent (s t : GeneratorState) (h : s.prefs = t.prefs) :
    create_pool (create_pool s) = create_pool s ∧
    (create_pool s).pool = (create_pool t).pool := by
  obtain ⟨ps, p0⟩ := s
  obtain ⟨pt, p1⟩ := t
  cases h
  exact ⟨rfl, rfl⟩

theorem create_pool_reset_idempotent_witness :
    ((⟨⟨4, true, false, true, false⟩, ("xy".toList)⟩ : GeneratorState).prefs =
      (⟨⟨4, true, false, true, false⟩, []⟩ : GeneratorState).prefs) ∧
    (create_pool (create_pool ⟨⟨4, true, false, true, false⟩, ("xy".toList)⟩) =
      create_pool ⟨⟨4, true, false, true, false⟩, ("xy".toList)⟩ ∧
    (create_pool ⟨⟨4, true, false, true, false⟩, ("xy".toList)⟩).pool =
      (create_pool ⟨⟨4, true, false, true, false⟩, []⟩).pool) :=
  ⟨rfl,
    create_pool_reset_idempotent ⟨⟨4, true, false, true, false⟩, ("xy".toList)⟩
      ⟨⟨4, true, false, true, false⟩, []⟩ rfl⟩

/-- Claim C3: appending two records to a fresh (non-existent) store and
reading the table back yields exactly those two rows in order, each with
its purpose upper-cased and its password and timestamp unchanged; in
particular appending (purpose "email", password "X7g!qT2z", timestamp
"2024-01-01 00:00:00") to a non-existent path creates the one-row table
with Purpose "EMAIL" and the other two fields unchanged. -/
theorem save_excel_roundtrip_fresh (p1 w1 t1 p2 w2 t2 : List Char) :
    (save_excel p1 w1 t1 none =
      (Except.ok (), some (FileContent.table [⟨py_upper p1, w1, t1⟩]))) ∧
    (save_excel p2 w2 t2 (some (FileContent.table [⟨py_upper p1, w1, t1⟩])) =
      (Except.ok (), some (FileContent.table
        [⟨py_upper p1, w1, t1⟩, ⟨py_upper p2, w2, t2⟩]))) ∧
    (read_excel (FileContent.table [⟨py_upper p1, w1, t1⟩, ⟨py_upper p2, w2, t2⟩]) =
      Except.ok [⟨py_upper p1, w1, t1⟩, ⟨py_upper p2, w2, t2⟩]) ∧
    (save_excel ("email".toList) ("X7g!qT2z".toList) ("2024-01-01 00:00:00".toList) none =
      (Except.ok (), some (FileContent.table
        [⟨("EMAIL".toList), ("X7g!qT2z".toList), ("2024-01-01 00:00:00".toList)⟩]))) :=
  ⟨rfl, rfl, rfl, rfl⟩

/-- Claim C5: appending to an existing well-formed table preserves every
existing row, in order and content, and places the new record (purpose
upper-cased) as the last row: the result is exactly the old table with
one row concatenated at the end. -/
theorem save_excel_append_preserves (existing : List Row) (p w t : List Char) :
    save_excel p w t (some (FileContent.table existing)) =
      (Except.ok (), some (FileContent.table (existing ++ [⟨py_upper p, w, t⟩]))) ∧
    (existing ++ [(⟨py_upper p, w, t⟩ : Row)]).take existing.length = existing ∧
    (existing ++ [(⟨py_upper p, w, t⟩ : Row)]).getLast? = some ⟨py_upper p, w, t⟩ :=
  ⟨rfl, List.take_left existing _, List.getLast?_concat existing⟩

/-- Claim C6, counterexample: on a parseable spreadsheet whose columns
are "A", "B" rather than the expected three, `save_excel` does not fail
— `pd.read_excel` reads it without error — and the file is silently
rewritten: `pd.concat` unions the columns, pads both sides with `NaN`,
and the full rewrite replaces the prior contents.  This refutes the
claim that every existing file that is not a well-formed table of the
expected shape makes the append fail and leaves the file unchanged. -/
theorem save_excel_wrong_shape_counterexample :
    (save_excel_df ("email".toList) ("X7g!qT2z".toList) ("2024-01-01 00:00:00".toList)
        (some (XlsxFile.readable wrong_shape_df)) =
      (Except.ok (), some (XlsxFile.readable
        ⟨[("A".toList), ("B".toList),
          ("Purpose".toList), ("Password".toList), ("Timestamp".toList)],
         [[some ("1".toList), some ("2".toList), none, none, none],
          [none, none, some ("EMAIL".toList), some ("X7g!qT2z".toList),
           some ("2024-01-01 00:00:00".toList)]]⟩))) ∧
    XlsxFile.readable
        (⟨[("A".toList), ("B".toList),
          ("Purpose".toList), ("Password".toList), ("Timestamp".toList)],
         [[some ("1".toList), some ("2".toList), none, none, none],
          [none, none, some ("EMAIL".toList), some ("X7g!qT2z".toList),
           some ("2024-01-01 00:00:00".toList)]]⟩ : DataFrame) ≠
      XlsxFile.readable wrong_shape_df :=
  ⟨rfl, by decide⟩

/-- Claim C6 (amended): `pd.read_excel` raises only on a file it cannot
parse; exactly there the append fails with the error propagating to the
caller (the read happens before any writer is opened) and the file's
prior contents are unchanged.  A parseable spreadsheet of any other
column shape is not detected: its rows are read without error, the new
record's columns are unioned in with `NaN` padding, and the file is
rewritten. -/
theorem save_excel_unreadable_propagates (p w t : List Char) (df : DataFrame) :
    (save_excel_df p w t (some XlsxFile.unreadable) =
      (Except.error (), some XlsxFile.unreadable)) ∧
    (save_excel_df p w t (some (XlsxFile.readable df)) =
      (Except.ok (), some (XlsxFile.readable (pd_concat df (row_df p w t))))) :=
  ⟨rfl, rfl⟩

/-- Claim C8: if the user declines to provide a purpose (the dialog is
cancelled, yielding `None`, or the typed purpose is the empty string),
no record is saved and no error is raised: the store file is left
completely unchanged. -/
theorem no_purpose_no_save (purpose : Option (List Char)) (password timestamp : List Char)
    (fs : Option FileContent)
    (h : purpose = none ∨ purpose = some []) :
    handle_purpose purpose password timestamp fs = (Except.ok (), fs) := by
  rcases h with h | h <;> subst h <;> rfl

theorem no_purpose_no_save_witness :
    ((none : Option (List Char)) = none ∨ (none : Option (List Char)) = some []) ∧
    handle_purpose none ("X7g!qT2z".toList) ("2024-01-01 00:00:00".toList)
      (some (FileContent.table [])) = (Except.ok (), some (FileContent.table [])) :=
  ⟨Or.inl rfl,
    no_purpose_no_save none ("X7g!qT2z".toList) ("2024-01-01 00:00:00".toList)
      (some (FileContent.table [])) (Or.inl rfl)⟩

/-- Claim C7: each password character comes from one call to the secure
source `secrets.choice` (line 80), modelled as one oracle draw per loop
iteration.  For a duplicate-free pool of size `n` and stored length
`len`: (1) the character at position `i` depends only on the `i`-th
draw; (2) among the `n ^ len` equally likely secure draw streams,
exactly `n ^ (len - 1)` select the pool character `pool[j]` at position
`i` — the same count for every `j`, i.e. each position is uniform over
the pool; (3) the draw-stream space has exactly `n ^ len` points;
(4) every full output arises from exactly one draw stream, so the joint
probability `n ^ -len` is the product of the per-position marginals —
the positions are independent. -/
theorem generate_password_uniform_independent (prefs : Prefs) (pool : List Char)
    (hnd : pool.Nodup) (h : 0 < pool.length)
    (i j : Nat) (hi : i < prefs.length_input) (hj : j < pool.length) :
    (∀ draws draws2 : Nat → Nat, draws i = draws2 i →
      output_char prefs pool draws i = output_char prefs pool draws2 i) ∧
    (Finset.univ.filter (fun f : Fin prefs.length_input → Fin pool.length =>
        output_char prefs pool (draw_stream prefs.length_input pool.length f) i =
          pool.getD j 'a')).card = pool.length ^ (prefs.length_input - 1) ∧
    (Finset.univ : Finset (Fin prefs.length_input → Fin pool.length)).card =
      pool.length ^ prefs.length_input ∧
    ∀ tgt : Fin prefs.length_input → Fin pool.length,
      (Finset.univ.filter (fun f : Fin prefs.length_input → Fin pool.length =>
          generate_password ⟨prefs, pool⟩ (draw_stream prefs.length_input pool.length f) =
          generate_password ⟨prefs, pool⟩ (draw_stream prefs.length_input pool.length tgt))).card
        = 1 := by
  refine ⟨?_, ?_, ?_, ?_⟩
  · intro draws draws2 hdd
    rw [output_char_eq prefs pool draws h i hi, output_char_eq prefs pool draws2 h i hi]
    congr 1
    apply Fin.ext
    simp [hdd]
  · have hcongr : Finset.univ.filter (fun f : Fin prefs.length_input → Fin pool.length =>
        output_char prefs pool (draw_stream prefs.length_input pool.length f) i =
          pool.getD j 'a') =
        Finset.univ.filter (fun f : Fin prefs.length_input → Fin pool.length =>
          f ⟨i, hi⟩ = ⟨j, hj⟩) := by
      apply Finset.filter_congr
      intro f _
      rw [output_char_stream prefs pool h f i hi, List.getD_eq_getElem pool 'a' hj]
      constructor
      · intro hg
        exact (hnd.get_inj_iff).mp (by rw [hg]; rfl)
      · intro hg
        rw [hg]
        rfl
    rw [hcongr, card_fix_one]
  · rw [Finset.card_univ, Fintype.card_fun]
    simp
  · intro tgt
    have hcongr : Finset.univ.filter (fun f : Fin prefs.length_input → Fin pool.length =>
        generate_password ⟨prefs, pool⟩ (draw_stream prefs.length_input pool.length f) =
        generate_password ⟨prefs, pool⟩ (draw_stream prefs.length_input pool.length tgt)) =
        Finset.univ.filter (fun f : Fin prefs.length_input → Fin pool.length => f = tgt) := by
      apply Finset.filter_congr
      intro f _
      constructor
      · intro hEq
        funext k
        obtain ⟨k, hk⟩ := k
        have hof : output_char prefs pool (draw_stream prefs.length_input pool.length f) k =
            output_char prefs pool (draw_stream prefs.length_input pool.length tgt) k := by
          unfold output_char
          rw [hEq]
        rw [output_char_stream prefs pool h f k hk,
            output_char_stream prefs pool h tgt k hk] at hof
        exact (hnd.get_inj_iff).mp hof
      · intro hEq
        rw [hEq]
    rw [hcongr]
    have hsingle : Finset.univ.filter
        (fun f : Fin prefs.length_input → Fin pool.length => f = tgt) = {tgt} := by
      rw [Finset.filter_eq']
      simp
    rw [hsingle, Finset.card_singleton]

theorem generate_password_uniform_independent_witness :
    (("ab".toList).Nodup) ∧
    (0 < ("ab".toList).length) ∧
    (0 < (⟨2, true, false, false, false⟩ : Prefs).length_input) ∧
    (1 < ("ab".toList).length) ∧
    ((∀ draws draws2 : Nat → Nat, draws 0 = draws2 0 →
      output_char ⟨2, true, false, false, false⟩ ("ab".toList) draws 0 =
        output_char ⟨2, true, false, false, false⟩ ("ab".toList) draws2 0) ∧
    (Finset.univ.filter
        (fun f : Fin (⟨2, true, false, false, false⟩ : Prefs).length_input →
            Fin ("ab".toList).length =>
          output_char ⟨2, true, false, false, false⟩ ("ab".toList)
            (draw_stream (⟨2, true, false, false, false⟩ : Prefs).length_input
              ("ab".toList).length f) 0 =
            ("ab".toList).getD 1 'a')).card =
      ("ab".toList).length ^ ((⟨2, true, false, false, false⟩ : Prefs).length_input - 1) ∧
    (Finset.univ : Finset (Fin (⟨2, true, false, false, false⟩ : Prefs).length_input →
        Fin ("ab".toList).length)).card =
      ("ab".toList).length ^ (⟨2, true, false, false, false⟩ : Prefs).length_input ∧
    ∀ tgt : Fin (⟨2, true, false, false, false⟩ : Prefs).length_input →
        Fin ("ab".toList).length,
      (Finset.univ.filter
          (fun f : Fin (⟨2, true, false, false, false⟩ : Prefs).length_input →
              Fin ("ab".toList).length =>
            generate_password ⟨⟨2, true, false, false, false⟩, ("ab".toList)⟩
              (draw_stream (⟨2, true, false, false, false⟩ : Prefs).length_input
                ("ab".toList).length f) =
            generate_password ⟨⟨2, true, false, false, false⟩, ("ab".toList)⟩
              (draw_stream (⟨2, true, false, false, false⟩ : Prefs).length_input
                ("ab".toList).length tgt))).card = 1) :=
  ⟨by decide, by decide, by decide, by decide,
    generate_password_uniform_independent ⟨2, true, false, false, false⟩ ("ab".toList)
      (by decide) (by decide) 0 1 (by decide) (by decide)⟩

end PwGen
